import Mathlib

/-
Verification of the `authority` package of go-ocf/step-ca
(src/authority/authority.go): a thin façade over the external
smallstep certificate-authority engine.

Modelling conventions:
- Go pointer/interface values that the façade only stores or forwards are
  modelled as small data structures tagged by a `Nat` (their identity); the
  façade never inspects their contents, so the tag is enough to state
  pass-through and equality properties.
- The external engine (`stepAuthority`, `pemutil`, `x509util`) is modelled
  as an environment of abstract (stub) functions: `Env` holds the package
  level functions a construction touches, and `StepAuthority` holds the
  per-handle methods the façade delegates to.
- A Go function returning `(T, error)` is modelled as `Option T × Option Err`
  (Go `nil` pointer = `none`, `nil` error = `none`); a fallible external
  call is modelled as `Except Err T`.
- `NewWithTrace` is the embedding of `New` instrumented with an event log
  recording the external calls it makes (engine construction, identity
  loading), used to state that identity loading is or is not attempted and
  with which pem options.
-/

namespace StepCA

/-- Abstract error value returned by the engine or the identity loader. -/
structure Err where
  code : Nat
deriving DecidableEq, Repr

/-- Base configuration consumed by the underlying engine
(`stepAuthority.Config` behind the embedded field `Config.Config`).
Opaque to the façade. -/
structure StepConfig where
  id : Nat
deriving DecidableEq, Repr

/-- Authority database handle (`db.AuthDB`). Opaque to the façade. -/
structure AuthDB where
  id : Nat
deriving DecidableEq, Repr

/-- Intermediate identity (`x509util.Identity`): the certificate/private
key pair loaded from disk. Opaque to the façade. -/
structure Identity where
  id : Nat
deriving DecidableEq, Repr

set_option linter.dupNamespace false

/-- Façade configuration (Go `Config`): the fields of the Go struct that
`authority.go` reads — the embedded base configuration `Config`, the
optional decryption `Password`, and the intermediate certificate and key
paths. -/
structure Config where
  Config : StepConfig
  Password : String
  IntermediateCert : String
  IntermediateKey : String
deriving DecidableEq, Repr

/-- Engine-level option (`stepAuthority.Option`). The one constructor the
façade source builds is `stepAuthority.WithDatabase`; every other engine
option is opaque (`other`). -/
inductive StepOption where
  | withDatabase (db : AuthDB)
  | other (tag : Nat)
deriving DecidableEq, Repr

/-- Façade-level option (Go `WrapperOption`, a `func(*Authority)`). The
façade collects these but never invokes them, so the function payload is
modelled as an opaque tag. -/
structure WrapperOption where
  id : Nat
deriving DecidableEq, Repr

/-- Construction option (Go `Option`, an empty interface). A dynamic value
is either of the façade variant `WrapperOption`, of the engine variant
`stepAuthority.Option`, or of some unrecognized type (`unknown`). -/
inductive AuthOption where
  | wrapper (w : WrapperOption)
  | engine (e : StepOption)
  | unknown (tag : Nat)
deriving DecidableEq, Repr

/-- Option to the pem utilities passed to `x509util.LoadIdentityFromDisk`;
the façade only ever builds `pemutil.WithPassword(password)`. -/
inductive PemOption where
  | withPassword (password : String)
deriving DecidableEq, Repr

/-- Opaque request-scoped types forwarded by the façade. -/
structure Context where
  id : Nat
deriving DecidableEq, Repr

/-- Certificate signing request (`x509.CertificateRequest`). Opaque. -/
structure CertRequest where
  id : Nat
deriving DecidableEq, Repr

/-- X.509 certificate (`x509.Certificate`). Opaque. -/
structure Certificate where
  id : Nat
deriving DecidableEq, Repr

/-- Provisioner options (`stepProvisioner.Options`). Opaque. -/
structure ProvOptions where
  id : Nat
deriving DecidableEq, Repr

/-- Sign option (`stepProvisioner.SignOption`).
Modelled from the spec: the concrete sign-option values and the marker the
predicate `isOCF` looks for are not in src/; per the spec, a sign option
either is the alternate-issuance-flow ("OCF") marker or is some other
directive, opaque to the routing decision. -/
inductive SignOption where
  | ocfMarker
  | other (tag : Nat)
deriving DecidableEq, Repr

/-- TLS options (`tlsutil.TLSOptions`). Opaque. -/
structure TLSOptions where
  id : Nat
deriving DecidableEq, Repr

/-- Provisioner handle (`stepProvisioner.Interface`). Opaque. -/
structure ProvisionerInterface where
  id : Nat
deriving DecidableEq, Repr

/-- Provisioner list page (`stepProvisioner.List`). Opaque. -/
structure ProvisionerList where
  id : Nat
deriving DecidableEq, Repr

/-- Revocation options (`authority.RevokeOptions`). Opaque. -/
structure RevokeOptions where
  id : Nat
deriving DecidableEq, Repr

/-- SSH public key (`ssh.PublicKey`). Opaque. -/
structure SSHPublicKey where
  id : Nat
deriving DecidableEq, Repr

/-- SSH options (`stepProvisioner.SSHOptions`). Opaque. -/
structure SSHOptions where
  id : Nat
deriving DecidableEq, Repr

/-- SSH certificate (`ssh.Certificate`). Opaque. -/
structure SSHCertificate where
  id : Nat
deriving DecidableEq, Repr

/-- TLS certificate (`tls.Certificate`). Opaque. -/
structure TLSCertificate where
  id : Nat
deriving DecidableEq, Repr

/-- Handle to the underlying engine (`*stepAuthority.Authority`): one field
per method the façade delegates to, each an abstract (stub) function fixed
by the handle. -/
structure StepAuthority where
  getDatabase : AuthDB
  shutdown : Option Err
  authorize : Context → String → List SignOption × Option Err
  authorizeSign : String → List SignOption × Option Err
  getTLSOptions : Option TLSOptions
  root : String → Option Certificate × Option Err
  sign : CertRequest → ProvOptions → List SignOption →
    Option Certificate × Option Certificate × Option Err
  renew : Certificate → Option Certificate × Option Certificate × Option Err
  loadProvisionerByCertificate : Certificate →
    Option ProvisionerInterface × Option Err
  loadProvisionerByID : String → Option ProvisionerInterface × Option Err
  getProvisioners : String → Int → ProvisionerList × String × Option Err
  revoke : RevokeOptions → Option Err
  getEncryptedKey : String → String × Option Err
  getRoots : List Certificate × Option Err
  getFederation : List Certificate × Option Err
  getTLSCertificate : Option TLSCertificate × Option Err
  signSSH : SSHPublicKey → SSHOptions → List SignOption →
    Option SSHCertificate × Option Err
  getRootCertificates : List Certificate
  signSSHAddUser : SSHPublicKey → SSHCertificate →
    Option SSHCertificate × Option Err

/-- The façade (Go `Authority`): configuration, engine handle, and the
loaded intermediate identity. -/
structure Authority where
  config : Config
  stepAuth : StepAuthority
  intermediateIdentity : Identity

/-- External package-level functions `New` and `LoadConfiguration` call:
the engine constructor `stepAuthority.New`, the identity loader
`x509util.LoadIdentityFromDisk` (its variadic pem options as a list), and
the engine configuration loader `stepAuthority.LoadConfiguration`. -/
structure Env where
  stepNew : StepConfig → List StepOption → Except Err StepAuthority
  loadIdentityFromDisk : String → String → List PemOption →
    Except Err Identity
  stepLoadConfiguration : String → Except Err StepConfig

/-- External constructor `stepAuthority.WithDatabase` of the engine
package: wraps a database handle as an engine-level option. -/
def stepAuthorityWithDatabase (db : AuthDB) : StepOption :=
  StepOption.withDatabase db

/-- Go `WithDatabase`: the façade re-exports the engine constructor; its
return type is `stepAuthority.Option` (here `StepOption`). -/
def WithDatabase (db : AuthDB) : StepOption :=
  stepAuthorityWithDatabase db

/-- The option-classification loop at the top of `New`: one pass over the
input options, appending each `WrapperOption` to `wrapOpts`, each
`stepAuthority.Option` to `stepOpts`, and skipping every other dynamic
type. Returns `(stepOpts, wrapOpts)`. -/
def partitionOpts (opts : List AuthOption) :
    List StepOption × List WrapperOption :=
  opts.foldl
    (fun acc o =>
      match o with
      | .wrapper v => (acc.1, acc.2 ++ [v])
      | .engine v => (acc.1 ++ [v], acc.2)
      | .unknown _ => acc)
    ([], [])

/-- Observable external call made during `New`: constructing the engine
with the engine options, or loading the intermediate identity from the
given certificate and key paths with the given pem options. -/
inductive Event where
  | engineConstruct (stepConfig : StepConfig) (stepOpts : List StepOption)
  | identityLoad (cert key : String) (pemOpts : List PemOption)
deriving DecidableEq, Repr

/-- Whether an event is an identity-load attempt. -/
def Event.isIdentityLoad : Event → Bool
  | .identityLoad _ _ _ => true
  | .engineConstruct _ _ => false

/-- Go `New`, instrumented with the list of external calls it performs.
Partitions the options, constructs the engine with the engine-option
partition (the wrapper-option partition of `partitionOpts` is collected
but never used, as in the source), then loads the intermediate identity —
with `pemutil.WithPassword(Password)` when the password is non-empty,
plain otherwise. Each failing external call returns `(nil, err)`
immediately; on success returns the fully populated façade. -/
def NewWithTrace (env : Env) (config : Config) (opts : List AuthOption) :
    (Option Authority × Option Err) × List Event :=
  let stepOpts := (partitionOpts opts).1
  match env.stepNew config.Config stepOpts with
  | .error err => ((none, some err), [.engineConstruct config.Config stepOpts])
  | .ok stepAuth =>
    if config.Password.length > 0 then
      match env.loadIdentityFromDisk config.IntermediateCert
          config.IntermediateKey [PemOption.withPassword config.Password] with
      | .error err =>
        ((none, some err),
         [.engineConstruct config.Config stepOpts,
          .identityLoad config.IntermediateCert config.IntermediateKey
            [PemOption.withPassword config.Password]])
      | .ok intermediateIdentity =>
        ((some { config := config, stepAuth := stepAuth,
                 intermediateIdentity := intermediateIdentity }, none),
         [.engineConstruct config.Config stepOpts,
          .identityLoad config.IntermediateCert config.IntermediateKey
            [PemOption.withPassword config.Password]])
    else
      match env.loadIdentityFromDisk config.IntermediateCert
          config.IntermediateKey [] with
      | .error err =>
        ((none, some err),
         [.engineConstruct config.Config stepOpts,
          .identityLoad config.IntermediateCert config.IntermediateKey []])
      | .ok intermediateIdentity =>
        ((some { config := config, stepAuth := stepAuth,
                 intermediateIdentity := intermediateIdentity }, none),
         [.engineConstruct config.Config stepOpts,
          .identityLoad config.IntermediateCert config.IntermediateKey []])

/-- Go `New`: the returned `(*Authority, error)` pair of `NewWithTrace`. -/
def New (env : Env) (config : Config) (opts : List AuthOption) :
    Option Authority × Option Err :=
  (NewWithTrace env config opts).1

/-- Go `LoadConfiguration`: delegates to `stepAuthority.LoadConfiguration`
and wraps a successful result in the façade `Config` (its remaining fields
take the Go zero value, the empty string). -/
def LoadConfiguration (env : Env) (filename : String) :
    Option Config × Option Err :=
  match env.stepLoadConfiguration filename with
  | .error err => (none, some err)
  | .ok config =>
    (some { Config := config, Password := "", IntermediateCert := "",
            IntermediateKey := "" }, none)

/-- Predicate `Authority.isOCF`.
Modelled from the spec: its body is not in src/; the spec fixes it as
"examine the sign-option sequence for a marker option that indicates
alternate-issuance-flow applicability; return true iff at least one
element matches". It reads only the sign-option sequence. -/
def isOCF (signOpts : List SignOption) : Bool :=
  signOpts.any fun o =>
    match o with
    | .ocfMarker => true
    | .other _ => false

/-- Which issuance path a `Sign` call takes. -/
inductive IssuancePath where
  | alternate
  | standard
deriving DecidableEq, Repr

/-- Go `Authority.Sign`, instrumented with the issuance path taken. The
alternate entrypoint `Authority.OCFSign` is not in src/, so it is passed
as an explicit function argument `ocfSign`; the standard path is the
engine handle's `Sign`. Both receive the arguments unchanged. -/
def Authority.SignWithPath (a : Authority)
    (ocfSign : CertRequest → ProvOptions → List SignOption →
      Option Certificate × Option Certificate × Option Err)
    (cr : CertRequest) (opts : ProvOptions) (signOpts : List SignOption) :
    (Option Certificate × Option Certificate × Option Err) × IssuancePath :=
  if isOCF signOpts then
    (ocfSign cr opts signOpts, .alternate)
  else
    (a.stepAuth.sign cr opts signOpts, .standard)

/-- Go `Authority.Sign`: the certificate result of `SignWithPath`. -/
def Authority.Sign (a : Authority)
    (ocfSign : CertRequest → ProvOptions → List SignOption →
      Option Certificate × Option Certificate × Option Err)
    (cr : CertRequest) (opts : ProvOptions) (signOpts : List SignOption) :
    Option Certificate × Option Certificate × Option Err :=
  (a.SignWithPath ocfSign cr opts signOpts).1

/-- Go `Authority.GetDatabase`. -/
def Authority.GetDatabase (a : Authority) : AuthDB :=
  a.stepAuth.getDatabase

/-- Go `Authority.Shutdown`. -/
def Authority.Shutdown (a : Authority) : Option Err :=
  a.stepAuth.shutdown

/-- Go `Authority.Authorize`. -/
def Authority.Authorize (a : Authority) (ctx : Context) (ott : String) :
    List SignOption × Option Err :=
  a.stepAuth.authorize ctx ott

/-- Go `Authority.AuthorizeSign`. -/
def Authority.AuthorizeSign (a : Authority) (ott : String) :
    List SignOption × Option Err :=
  a.stepAuth.authorizeSign ott

/-- Go `Authority.GetTLSOptions`. -/
def Authority.GetTLSOptions (a : Authority) : Option TLSOptions :=
  a.stepAuth.getTLSOptions

/-- Go `Authority.Root`. -/
def Authority.Root (a : Authority) (shasum : String) :
    Option Certificate × Option Err :=
  a.stepAuth.root shasum

/-- Go `Authority.Renew`. -/
def Authority.Renew (a : Authority) (peer : Certificate) :
    Option Certificate × Option Certificate × Option Err :=
  a.stepAuth.renew peer

/-- Go `Authority.LoadProvisionerByCertificate`. -/
def Authority.LoadProvisionerByCertificate (a : Authority)
    (c : Certificate) : Option ProvisionerInterface × Option Err :=
  a.stepAuth.loadProvisionerByCertificate c

/-- Go `Authority.LoadProvisionerByID`. -/
def Authority.LoadProvisionerByID (a : Authority) (ID : String) :
    Option ProvisionerInterface × Option Err :=
  a.stepAuth.loadProvisionerByID ID

/-- Go `Authority.GetProvisioners`. -/
def Authority.GetProvisioners (a : Authority) (cursor : String)
    (limit : Int) : ProvisionerList × String × Option Err :=
  a.stepAuth.getProvisioners cursor limit

/-- Go `Authority.Revoke`. -/
def Authority.Revoke (a : Authority) (opts : RevokeOptions) : Option Err :=
  a.stepAuth.revoke opts

/-- Go `Authority.GetEncryptedKey`. -/
def Authority.GetEncryptedKey (a : Authority) (kid : String) :
    String × Option Err :=
  a.stepAuth.getEncryptedKey kid

/-- Go `Authority.GetRoots`. -/
def Authority.GetRoots (a : Authority) : List Certificate × Option Err :=
  a.stepAuth.getRoots

/-- Go `Authority.GetFederation`. -/
def Authority.GetFederation (a : Authority) :
    List Certificate × Option Err :=
  a.stepAuth.getFederation

/-- Go `Authority.GetTLSCertificate`. -/
def Authority.GetTLSCertificate (a : Authority) :
    Option TLSCertificate × Option Err :=
  a.stepAuth.getTLSCertificate

/-- Go `Authority.SignSSH`: the sign options are forwarded as the slice
`signOpts` (the engine method takes the slice directly). -/
def Authority.SignSSH (a : Authority) (key : SSHPublicKey)
    (opts : SSHOptions) (signOpts : List SignOption) :
    Option SSHCertificate × Option Err :=
  a.stepAuth.signSSH key opts signOpts

/-- Go `Authority.GetRootCertificates`. -/
def Authority.GetRootCertificates (a : Authority) : List Certificate :=
  a.stepAuth.getRootCertificates

/-- Go `Authority.SignSSHAddUser`. -/
def Authority.SignSSHAddUser (a : Authority) (key : SSHPublicKey)
    (subject : SSHCertificate) : Option SSHCertificate × Option Err :=
  a.stepAuth.signSSHAddUser key subject

/-- Projection used to state the partition law: the engine-variant payload
of an option, if any. -/
def AuthOption.engineOf : AuthOption → Option StepOption
  | .engine e => some e
  | .wrapper _ => none
  | .unknown _ => none

/-- Projection used to state the partition law: the façade-variant payload
of an option, if any. -/
def AuthOption.wrapperOf : AuthOption → Option WrapperOption
  | .wrapper w => some w
  | .engine _ => none
  | .unknown _ => none

/-- Whether an option is of the façade variant. -/
def AuthOption.isWrapper : AuthOption → Bool
  | .wrapper _ => true
  | .engine _ => false
  | .unknown _ => false

/-- Stub engine handle: a concrete `StepAuthority` whose every method
returns a fixed sentinel, used to evaluate the façade on concrete
inputs. -/
def stubStepAuthority : StepAuthority where
  getDatabase := ⟨0⟩
  shutdown := none
  authorize := fun _ _ => ([], none)
  authorizeSign := fun _ => ([], none)
  getTLSOptions := some ⟨0⟩
  root := fun _ => (some ⟨0⟩, none)
  sign := fun _ _ _ => (some ⟨10⟩, some ⟨11⟩, none)
  renew := fun _ => (some ⟨12⟩, some ⟨13⟩, none)
  loadProvisionerByCertificate := fun _ => (some ⟨0⟩, none)
  loadProvisionerByID := fun _ => (some ⟨0⟩, none)
  getProvisioners := fun _ _ => (⟨0⟩, "", none)
  revoke := fun _ => none
  getEncryptedKey := fun _ => ("", none)
  getRoots := ([], none)
  getFederation := ([], none)
  getTLSCertificate := (some ⟨0⟩, none)
  signSSH := fun _ _ _ => (some ⟨0⟩, none)
  getRootCertificates := []
  signSSHAddUser := fun _ _ => (some ⟨0⟩, none)

/-- Stub façade instance over the stub engine. -/
def stubAuthority : Authority where
  config := ⟨⟨0⟩, "", "", ""⟩
  stepAuth := stubStepAuthority
  intermediateIdentity := ⟨0⟩

/-- Stub alternate signing entrypoint, distinguishable from the stub
engine's standard `sign`. -/
def stubOCFSign : CertRequest → ProvOptions → List SignOption →
    Option Certificate × Option Certificate × Option Err :=
  fun _ _ _ => (some ⟨20⟩, some ⟨21⟩, none)

/-- Environment whose engine constructor fails with a sentinel error. -/
def failingEnv : Env where
  stepNew := fun _ _ => .error ⟨7⟩
  loadIdentityFromDisk := fun _ _ _ => .ok ⟨0⟩
  stepLoadConfiguration := fun _ => .ok ⟨0⟩

/-- Environment whose external calls all succeed with sentinels. -/
def okEnv : Env where
  stepNew := fun _ _ => .ok stubStepAuthority
  loadIdentityFromDisk := fun _ _ _ => .ok ⟨3⟩
  stepLoadConfiguration := fun _ => .ok ⟨0⟩

/-- The classification loop of `New`, characterized: folding from any
accumulator pair appends the engine-variant projections to the first
component and the façade-variant projections to the second. -/
theorem partitionOpts_go (opts : List AuthOption) (s : List StepOption)
    (w : List WrapperOption) :
    opts.foldl
      (fun acc o =>
        match o with
        | .wrapper v => (acc.1, acc.2 ++ [v])
        | .engine v => (acc.1 ++ [v], acc.2)
        | .unknown _ => acc)
      (s, w)
    = (s ++ opts.filterMap AuthOption.engineOf,
       w ++ opts.filterMap AuthOption.wrapperOf) := by
  induction opts generalizing s w with
  | nil => simp
  | cons o rest ih =>
    cases o with
    | wrapper v =>
      simp [List.foldl_cons, ih, AuthOption.engineOf, AuthOption.wrapperOf]
    | engine v =>
      simp [List.foldl_cons, ih, AuthOption.engineOf, AuthOption.wrapperOf]
    | unknown t =>
      simp [List.foldl_cons, ih, AuthOption.engineOf, AuthOption.wrapperOf]

/-- The engine-option partition is the list of engine-variant payloads in
input order. -/
theorem partitionOpts_fst (opts : List AuthOption) :
    (partitionOpts opts).1 = opts.filterMap AuthOption.engineOf := by
  simp [partitionOpts, partitionOpts_go]

/-- The façade-option partition is the list of façade-variant payloads in
input order. -/
theorem partitionOpts_snd (opts : List AuthOption) :
    (partitionOpts opts).2 = opts.filterMap AuthOption.wrapperOf := by
  simp [partitionOpts, partitionOpts_go]

/-- Filtering by any predicate that discards exactly the façade-variant
options does not change the engine-variant projections. -/
theorem filterMap_engineOf_filter (p : AuthOption → Bool)
    (hw : ∀ w, p (.wrapper w) = false) (he : ∀ e, p (.engine e) = true)
    (hu : ∀ t, p (.unknown t) = true) (opts : List AuthOption) :
    (opts.filter p).filterMap AuthOption.engineOf
      = opts.filterMap AuthOption.engineOf := by
  induction opts with
  | nil => rfl
  | cons o rest ih =>
    cases o with
    | wrapper v => simp [List.filter_cons, hw, AuthOption.engineOf, ih]
    | engine v => simp [List.filter_cons, he, AuthOption.engineOf, ih]
    | unknown t => simp [List.filter_cons, hu, AuthOption.engineOf, ih]

/-- Removing the façade-variant options from the input does not change the
engine-variant projections. -/
theorem engineOf_filter_nonwrapper (opts : List AuthOption) :
    (opts.filter fun o => !o.isWrapper).filterMap AuthOption.engineOf
      = opts.filterMap AuthOption.engineOf :=
  filterMap_engineOf_filter _ (fun _ => rfl) (fun _ => rfl) (fun _ => rfl) opts

/-- The trace of `New` always starts with the engine-construction call,
carrying the base configuration and the engine-option partition. -/
theorem newWithTrace_head (env : Env) (config : Config)
    (opts : List AuthOption) :
    (NewWithTrace env config opts).2.head? =
      some (Event.engineConstruct config.Config (partitionOpts opts).1) := by
  cases h : env.stepNew config.Config (partitionOpts opts).1 with
  | error e => simp [NewWithTrace, h]
  | ok sa =>
    by_cases hp : config.Password.length > 0
    · cases hl : env.loadIdentityFromDisk config.IntermediateCert
          config.IntermediateKey [PemOption.withPassword config.Password] <;>
        simp [NewWithTrace, h, hp, hl]
    · cases hl : env.loadIdentityFromDisk config.IntermediateCert
          config.IntermediateKey [] <;>
        simp [NewWithTrace, h, hp, hl]

/-- C1: every engine-variant option lands in the engine-option partition
and every façade-variant option in the façade-option partition, each in
the original relative order (the partitions are exactly the ordered
variant projections of the input), and an option of an unrecognized
variant is dropped without affecting either partition. -/
theorem option_partition_law (opts opts₁ opts₂ : List AuthOption)
    (t : Nat) :
    partitionOpts opts =
      (opts.filterMap AuthOption.engineOf,
       opts.filterMap AuthOption.wrapperOf) ∧
    partitionOpts (opts₁ ++ AuthOption.unknown t :: opts₂)
      = partitionOpts (opts₁ ++ opts₂) := by
  constructor
  · simpa [partitionOpts] using partitionOpts_go opts [] []
  · have h1 := partitionOpts_fst (opts₁ ++ AuthOption.unknown t :: opts₂)
    have h2 := partitionOpts_snd (opts₁ ++ AuthOption.unknown t :: opts₂)
    have h3 := partitionOpts_fst (opts₁ ++ opts₂)
    have h4 := partitionOpts_snd (opts₁ ++ opts₂)
    refine Prod.ext ?_ ?_
    · rw [h1, h3]
      simp [AuthOption.engineOf]
    · rw [h2, h4]
      simp [AuthOption.wrapperOf]

/-- C2: `Sign` dispatches to the alternate (OCF) entrypoint with identical
arguments exactly when `isOCF` holds of the sign-option sequence, and to
the engine's standard `Sign` with identical arguments otherwise. -/
theorem sign_routes_on_isOCF (a : Authority)
    (ocfSign : CertRequest → ProvOptions → List SignOption →
      Option Certificate × Option Certificate × Option Err)
    (cr : CertRequest) (opts : ProvOptions) (signOpts : List SignOption) :
    (isOCF signOpts = true →
      a.Sign ocfSign cr opts signOpts = ocfSign cr opts signOpts) ∧
    (isOCF signOpts = false →
      a.Sign ocfSign cr opts signOpts = a.stepAuth.sign cr opts signOpts) := by
  constructor <;> intro h <;>
    simp [Authority.Sign, Authority.SignWithPath, h]

/-- Witness for C2: with the OCF marker present the stub façade routes to
the alternate entrypoint. -/
theorem sign_routes_on_isOCF_witness :
    isOCF [SignOption.ocfMarker] = true ∧
    stubAuthority.Sign stubOCFSign ⟨0⟩ ⟨0⟩ [SignOption.ocfMarker]
      = stubOCFSign ⟨0⟩ ⟨0⟩ [SignOption.ocfMarker] :=
  ⟨by decide,
   (sign_routes_on_isOCF stubAuthority stubOCFSign ⟨0⟩ ⟨0⟩
      [SignOption.ocfMarker]).1 (by decide)⟩

/-- C3: when the engine constructor fails, `New` returns no façade and the
engine's error unchanged, and the trace shows the identity loader was
never called. -/
theorem engine_failure_short_circuits (env : Env) (config : Config)
    (opts : List AuthOption) (e : Err)
    (h : env.stepNew config.Config (partitionOpts opts).1 = .error e) :
    New env config opts = (none, some e) ∧
    (NewWithTrace env config opts).2 =
      [Event.engineConstruct config.Config (partitionOpts opts).1] ∧
    ∀ ev ∈ (NewWithTrace env config opts).2, ev.isIdentityLoad = false := by
  have htr : NewWithTrace env config opts =
      ((none, some e),
       [Event.engineConstruct config.Config (partitionOpts opts).1]) := by
    simp [NewWithTrace, h]
  refine ⟨?_, ?_, ?_⟩
  · simp [New, htr]
  · simp [htr]
  · intro ev hev
    rw [htr] at hev
    simp at hev
    simp [hev, Event.isIdentityLoad]

/-- Witness for C3: a concrete failing engine constructor short-circuits
`New` with its error. -/
theorem engine_failure_short_circuits_witness :
    failingEnv.stepNew (⟨0⟩ : StepConfig) (partitionOpts []).1
      = .error ⟨7⟩ ∧
    New failingEnv ⟨⟨0⟩, "", "", ""⟩ [] = (none, some ⟨7⟩) :=
  ⟨rfl,
   (engine_failure_short_circuits failingEnv ⟨⟨0⟩, "", "", ""⟩ [] ⟨7⟩ rfl).1⟩

/-- C4: once the engine is constructed, the identity is loaded with
`pemutil.WithPassword(Password)` exactly when `Password` is non-empty and
with no pem options when it is empty; a load failure makes `New` return
the load error and no façade, and a successful `New` returns a façade
holding the loaded identity. -/
theorem identity_loading_password_gated (env : Env) (config : Config)
    (opts : List AuthOption) (stepAuth : StepAuthority)
    (h : env.stepNew config.Config (partitionOpts opts).1 = .ok stepAuth) :
    (config.Password.length > 0 →
      (NewWithTrace env config opts).2 =
        [Event.engineConstruct config.Config (partitionOpts opts).1,
         Event.identityLoad config.IntermediateCert config.IntermediateKey
           [PemOption.withPassword config.Password]] ∧
      (∀ e, env.loadIdentityFromDisk config.IntermediateCert
          config.IntermediateKey [PemOption.withPassword config.Password]
          = .error e → New env config opts = (none, some e)) ∧
      (∀ i, env.loadIdentityFromDisk config.IntermediateCert
          config.IntermediateKey [PemOption.withPassword config.Password]
          = .ok i →
        New env config opts =
          (some { config := config, stepAuth := stepAuth,
                  intermediateIdentity := i }, none))) ∧
    (config.Password.length = 0 →
      (NewWithTrace env config opts).2 =
        [Event.engineConstruct config.Config (partitionOpts opts).1,
         Event.identityLoad config.IntermediateCert
           config.IntermediateKey []] ∧
      (∀ e, env.loadIdentityFromDisk config.IntermediateCert
          config.IntermediateKey [] = .error e →
        New env config opts = (none, some e)) ∧
      (∀ i, env.loadIdentityFromDisk config.IntermediateCert
          config.IntermediateKey [] = .ok i →
        New env config opts =
          (some { config := config, stepAuth := stepAuth,
                  intermediateIdentity := i }, none))) := by
  constructor
  · intro hp
    refine ⟨?_, ?_, ?_⟩
    · cases hl : env.loadIdentityFromDisk config.IntermediateCert
          config.IntermediateKey [PemOption.withPassword config.Password] <;>
        simp [NewWithTrace, h, hp, hl]
    · intro e he
      simp [New, NewWithTrace, h, hp, he]
    · intro i hi
      simp [New, NewWithTrace, h, hp, hi]
  · intro hp
    have hp' : ¬ config.Password.length > 0 := by omega
    refine ⟨?_, ?_, ?_⟩
    · cases hl : env.loadIdentityFromDisk config.IntermediateCert
          config.IntermediateKey [] <;>
        simp [NewWithTrace, h, hp', hl]
    · intro e he
      simp [New, NewWithTrace, h, hp', he]
    · intro i hi
      simp [New, NewWithTrace, h, hp', hi]

/-- Witness for C4: with a non-empty password and a succeeding loader, the
constructed façade holds the loaded identity. -/
theorem identity_loading_password_gated_witness :
    okEnv.stepNew (⟨0⟩ : StepConfig) (partitionOpts []).1
      = .ok stubStepAuthority ∧
    "p".length > 0 ∧
    okEnv.loadIdentityFromDisk "c" "k" [PemOption.withPassword "p"]
      = .ok ⟨3⟩ ∧
    New okEnv ⟨⟨0⟩, "p", "c", "k"⟩ [] =
      (some { config := ⟨⟨0⟩, "p", "c", "k"⟩,
              stepAuth := stubStepAuthority,
              intermediateIdentity := ⟨3⟩ }, none) :=
  ⟨rfl, by decide, rfl,
   ((identity_loading_password_gated okEnv ⟨⟨0⟩, "p", "c", "k"⟩ []
       stubStepAuthority rfl).1 (by decide)).2.2 ⟨3⟩ rfl⟩

/-- C5: every pass-through operation forwards its inputs unchanged to the
corresponding engine method and returns exactly its result and error. -/
theorem pass_through_delegation (a : Authority) :
    (∀ ctx ott, a.Authorize ctx ott = a.stepAuth.authorize ctx ott) ∧
    (∀ ott, a.AuthorizeSign ott = a.stepAuth.authorizeSign ott) ∧
    (a.GetTLSOptions = a.stepAuth.getTLSOptions) ∧
    (∀ shasum, a.Root shasum = a.stepAuth.root shasum) ∧
    (∀ peer, a.Renew peer = a.stepAuth.renew peer) ∧
    (∀ c, a.LoadProvisionerByCertificate c
      = a.stepAuth.loadProvisionerByCertificate c) ∧
    (∀ i, a.LoadProvisionerByID i = a.stepAuth.loadProvisionerByID i) ∧
    (∀ cursor limit, a.GetProvisioners cursor limit
      = a.stepAuth.getProvisioners cursor limit) ∧
    (∀ opts, a.Revoke opts = a.stepAuth.revoke opts) ∧
    (∀ kid, a.GetEncryptedKey kid = a.stepAuth.getEncryptedKey kid) ∧
    (a.GetRoots = a.stepAuth.getRoots) ∧
    (a.GetFederation = a.stepAuth.getFederation) ∧
    (a.GetTLSCertificate = a.stepAuth.getTLSCertificate) ∧
    (∀ key opts signOpts, a.SignSSH key opts signOpts
      = a.stepAuth.signSSH key opts signOpts) ∧
    (a.GetRootCertificates = a.stepAuth.getRootCertificates) ∧
    (∀ key subject, a.SignSSHAddUser key subject
      = a.stepAuth.signSSHAddUser key subject) ∧
    (a.Shutdown = a.stepAuth.shutdown) :=
  ⟨fun _ _ => rfl, fun _ => rfl, rfl, fun _ => rfl, fun _ => rfl,
   fun _ => rfl, fun _ => rfl, fun _ _ => rfl, fun _ => rfl, fun _ => rfl,
   rfl, rfl, rfl, fun _ _ _ => rfl, rfl, fun _ _ => rfl, rfl⟩

/-- C6: the façade-option partition is never applied — two option lists
that agree outside their façade-variant elements give identical `New`
results and identical traces. -/
theorem wrapper_options_unused (env : Env) (config : Config)
    (opts₁ opts₂ : List AuthOption)
    (h : opts₁.filter (fun o => !o.isWrapper)
      = opts₂.filter (fun o => !o.isWrapper)) :
    NewWithTrace env config opts₁ = NewWithTrace env config opts₂ := by
  have hstep : (partitionOpts opts₁).1 = (partitionOpts opts₂).1 := by
    rw [partitionOpts_fst, partitionOpts_fst,
        ← engineOf_filter_nonwrapper opts₁,
        ← engineOf_filter_nonwrapper opts₂, h]
  simp only [NewWithTrace, hstep]

/-- Witness for C6: two different façade-variant options give the same
construction result. -/
theorem wrapper_options_unused_witness :
    ([AuthOption.wrapper ⟨1⟩].filter (fun o => !o.isWrapper)
      = [AuthOption.wrapper ⟨2⟩].filter (fun o => !o.isWrapper)) ∧
    NewWithTrace okEnv ⟨⟨0⟩, "", "c", "k"⟩ [AuthOption.wrapper ⟨1⟩]
      = NewWithTrace okEnv ⟨⟨0⟩, "", "c", "k"⟩ [AuthOption.wrapper ⟨2⟩] :=
  ⟨by decide,
   wrapper_options_unused okEnv ⟨⟨0⟩, "", "c", "k"⟩
     [AuthOption.wrapper ⟨1⟩] [AuthOption.wrapper ⟨2⟩] (by decide)⟩

/-- C7: `WithDatabase` produces an engine-variant option: appended to any
input list it extends the engine-option partition (and is handed to the
engine constructor as part of it) and leaves the façade-option partition
untouched. -/
theorem withDatabase_is_engine_option (env : Env) (config : Config)
    (opts : List AuthOption) (db : AuthDB) :
    (partitionOpts (opts ++ [AuthOption.engine (WithDatabase db)])).1
      = (partitionOpts opts).1 ++ [WithDatabase db] ∧
    (partitionOpts (opts ++ [AuthOption.engine (WithDatabase db)])).2
      = (partitionOpts opts).2 ∧
    (NewWithTrace env config
        (opts ++ [AuthOption.engine (WithDatabase db)])).2.head?
      = some (Event.engineConstruct config.Config
          ((partitionOpts opts).1 ++ [WithDatabase db])) := by
  have h1 : (partitionOpts (opts ++ [AuthOption.engine (WithDatabase db)])).1
      = (partitionOpts opts).1 ++ [WithDatabase db] := by
    rw [partitionOpts_fst, partitionOpts_fst]
    simp [AuthOption.engineOf]
  refine ⟨h1, ?_, ?_⟩
  · rw [partitionOpts_snd, partitionOpts_snd]
    simp [AuthOption.wrapperOf]
  · rw [newWithTrace_head, h1]

/-- C8: `LoadConfiguration` propagates a loader error unchanged with no
configuration, and wraps a successfully parsed base configuration in the
façade `Config`. -/
theorem loadConfiguration_delegates (env : Env) (filename : String) :
    (∀ e, env.stepLoadConfiguration filename = .error e →
      LoadConfiguration env filename = (none, some e)) ∧
    (∀ c, env.stepLoadConfiguration filename = .ok c →
      ∃ cfg, LoadConfiguration env filename = (some cfg, none) ∧
        cfg.Config = c) := by
  constructor
  · intro e he
    simp [LoadConfiguration, he]
  · intro c hc
    refine ⟨{ Config := c, Password := "", IntermediateCert := "",
              IntermediateKey := "" }, ?_, rfl⟩
    simp [LoadConfiguration, hc]

/-- Witness for C8: a succeeding loader yields a façade configuration
wrapping the parsed base configuration. -/
theorem loadConfiguration_delegates_witness :
    okEnv.stepLoadConfiguration "ca.json" = .ok ⟨0⟩ ∧
    ∃ cfg, LoadConfiguration okEnv "ca.json" = (some cfg, none) ∧
      cfg.Config = ⟨0⟩ :=
  ⟨rfl, (loadConfiguration_delegates okEnv "ca.json").2 ⟨0⟩ rfl⟩

/-- C9: `New` is atomic at its boundary — it returns either a façade with
no error or no façade with an error. -/
theorem new_atomic (env : Env) (config : Config)
    (opts : List AuthOption) :
    (∃ a, New env config opts = (some a, none)) ∨
    (∃ e, New env config opts = (none, some e)) := by
  cases h : env.stepNew config.Config (partitionOpts opts).1 with
  | error e => exact Or.inr ⟨e, by simp [New, NewWithTrace, h]⟩
  | ok sa =>
    by_cases hp : config.Password.length > 0
    · cases hl : env.loadIdentityFromDisk config.IntermediateCert
          config.IntermediateKey [PemOption.withPassword config.Password] with
      | error e => exact Or.inr ⟨e, by simp [New, NewWithTrace, h, hp, hl]⟩
      | ok i =>
        exact Or.inl ⟨{ config := config, stepAuth := sa,
                        intermediateIdentity := i },
          by simp [New, NewWithTrace, h, hp, hl]⟩
    · cases hl : env.loadIdentityFromDisk config.IntermediateCert
          config.IntermediateKey [] with
      | error e => exact Or.inr ⟨e, by simp [New, NewWithTrace, h, hp, hl]⟩
      | ok i =>
        exact Or.inl ⟨{ config := config, stepAuth := sa,
                        intermediateIdentity := i },
          by simp [New, NewWithTrace, h, hp, hl]⟩

/-- C10: the issuance-path choice of `Sign` is a pure function of the
sign-option sequence alone — it does not depend on the façade instance,
the alternate entrypoint, the request, or the base options, and it equals
the `isOCF` test. -/
theorem sign_path_deterministic (a₁ a₂ : Authority)
    (f₁ f₂ : CertRequest → ProvOptions → List SignOption →
      Option Certificate × Option Certificate × Option Err)
    (cr₁ cr₂ : CertRequest) (o₁ o₂ : ProvOptions)
    (signOpts : List SignOption) :
    (a₁.SignWithPath f₁ cr₁ o₁ signOpts).2
      = (a₂.SignWithPath f₂ cr₂ o₂ signOpts).2 ∧
    (a₁.SignWithPath f₁ cr₁ o₁ signOpts).2
      = (if isOCF signOpts then IssuancePath.alternate
         else IssuancePath.standard) := by
  cases h : isOCF signOpts <;> simp [Authority.SignWithPath, h]

end StepCA
